import Mathlib

/-!
Verification development for the `bevy_mod_wanderlust` character controller.

The controller's per-tick systems (`src/controller/*.rs`) are shallowly
embedded here.  Pure numeric code is translated over `ℚ` (the original uses
`f32`; no claim below depends on rounding), and the few genuinely
irrational operations (`sqrt`-based normalization, `acos`-based angles)
are translated over `ℝ`.  ECS queries into the physics engine (transform,
mass, velocity lookups, shape/ray casts) are external collaborators per the
design, so the embedded functions take their already-resolved results as
explicit parameters.
-/

namespace Wanderlust

/-- Three-component vector, mirroring `glam::Vec3` with components in `α`. -/
structure V3 (α : Type) where
  x : α
  y : α
  z : α
deriving DecidableEq, Repr

namespace V3

variable {α : Type} [LinearOrderedField α]

instance : Zero (V3 α) := ⟨⟨0, 0, 0⟩⟩

instance : Add (V3 α) := ⟨fun a b => ⟨a.x + b.x, a.y + b.y, a.z + b.z⟩⟩

instance : Sub (V3 α) := ⟨fun a b => ⟨a.x - b.x, a.y - b.y, a.z - b.z⟩⟩

instance : Neg (V3 α) := ⟨fun a => ⟨-a.x, -a.y, -a.z⟩⟩

/-- Componentwise product, `glam`'s `Mul<Vec3> for Vec3`. -/
instance : Mul (V3 α) := ⟨fun a b => ⟨a.x * b.x, a.y * b.y, a.z * b.z⟩⟩

/-- Scalar multiplication, `glam`'s `Mul<f32> for Vec3`. -/
instance : SMul α (V3 α) := ⟨fun s a => ⟨s * a.x, s * a.y, s * a.z⟩⟩

/-- Dot product. -/
def dot (a b : V3 α) : α := a.x * b.x + a.y * b.y + a.z * b.z

/-- Cross product. -/
def cross (a b : V3 α) : V3 α :=
  ⟨a.y * b.z - a.z * b.y, a.z * b.x - a.x * b.z, a.x * b.y - a.y * b.x⟩

/-- Squared euclidean length, `Vec3::length_squared`. -/
def length_squared (a : V3 α) : α := dot a a

/-- Vector projection, `Vec3::project_onto`: `rhs * (self·rhs / rhs·rhs)`.
(`glam` divides by `rhs.length_squared()`; for a zero `rhs` the original
produces non-finite floats, here field division by zero yields `0` — no
claim exercises that degenerate input.) -/
def project_onto (a rhs : V3 α) : V3 α := (dot a rhs / length_squared rhs) • rhs

end V3

/-! ## Jump state machine, `src/controller/movement.rs` lines 201-332 -/

/-- The `Jump` component (`movement.rs:204-250`).  The optional decay
function pointer `decay_function: Option<fn(f32) -> f32>` is kept as an
optional function. -/
structure Jump where
  initial_force : ℚ
  force : ℚ
  cooldown_duration : ℚ
  cooldown_timer : ℚ
  jump_duration : ℚ
  jump_timer : ℚ
  decay_function : Option (ℚ → ℚ)
  jumps : ℕ
  remaining_jumps : ℕ
  pressed_last_frame : Bool
  stop_force : ℚ
  buffer_timer : ℚ
  buffer_duration : ℚ
  first_jump_grounded : Bool
  coyote_duration : ℚ
  coyote_timer : ℚ
  skip_ground_check_duration : ℚ

namespace Jump

/-- The closure `tick` inside `Jump::tick_timers` (`movement.rs:283-287`):
a timer is decremented by `dt` and clamped at zero, but only if it was
positive. -/
def tick_one (dt timer : ℚ) : ℚ := if timer > 0 then max (timer - dt) 0 else timer

/-- `Jump::tick_timers` (`movement.rs:282-293`).  Note the fourth call
passes `self.coyote_duration` — the configured duration — not
`self.coyote_timer`. -/
def tick_timers (j : Jump) (dt : ℚ) : Jump :=
  { j with
    cooldown_timer := tick_one dt j.cooldown_timer
    jump_timer := tick_one dt j.jump_timer
    buffer_timer := tick_one dt j.buffer_timer
    coyote_duration := tick_one dt j.coyote_duration }

/-- `Jump::jumping` (`movement.rs:296-298`). -/
def jumping (j : Jump) : Bool := j.jump_timer > 0

/-- `Jump::can_jump` (`movement.rs:301-311`). -/
def can_jump (j : Jump) (grounded : Bool) : Bool :=
  let first_jump := j.remaining_jumps == j.jumps
  let grounded' := grounded || j.coyote_timer > 0
  if first_jump && !grounded' then false
  else j.cooldown_timer ≤ 0 && j.remaining_jumps > 0

/-- `Jump::reset_jump` (`movement.rs:314-317`). -/
def reset_jump (j : Jump) : Jump :=
  { j with remaining_jumps := j.jumps, jump_timer := 0 }

/-- `Jump::jump_progress` (`movement.rs:320-322`). -/
def jump_progress (j : Jump) : ℚ := (j.jump_duration - j.jump_timer) / j.jump_duration

/-- `Jump::decay_multiplier` (`movement.rs:325-331`). -/
def decay_multiplier (j : Jump) : ℚ :=
  match j.decay_function with
  | some f => f j.jump_progress
  | none => 1

end Jump

/-- Per-entity inputs to one run of the `jump_force` system body, with the
ECS-resolved quantities passed explicitly: `grounded` is the `Grounded`
component, `velocity` the controller's linear velocity, `ground_point_velocity`
the `point_velocity` of `viable_ground.last()` when present. -/
structure JumpTickInput where
  jumping : Bool
  grounded : Bool
  velocity : V3 ℚ
  ground_point_velocity : Option (V3 ℚ)
  up_vector : V3 ℚ
  mass : ℚ
  dt : ℚ
  float_force : V3 ℚ
  gravity_force : V3 ℚ
  skip_ground_check_timer : ℚ

/-- Outputs of one run of the `jump_force` system body for one entity. -/
structure JumpTickResult where
  jump : Jump
  force : V3 ℚ
  float_force : V3 ℚ
  gravity_force : V3 ℚ
  skip_ground_check_timer : ℚ

/-- The `velocity` binding at `movement.rs:387-391`: the controller's linear
velocity relative to the point velocity of `viable_ground.last()`, when
such a last viable ground exists. -/
def JumpTickInput.relative_velocity (inp : JumpTickInput) : V3 ℚ :=
  match inp.ground_point_velocity with
  | some pv => inp.velocity - pv
  | none => inp.velocity

/-- The mutations `jump_force` applies to the `Jump` component before
choosing a branch (`movement.rs:377-399`): tick the timers, refresh the
coyote timer while grounded, reset the charges when grounded off cooldown,
and refresh the jump buffer on an airborne rising edge. -/
def jump_pre (j0 : Jump) (inp : JumpTickInput) : Jump :=
  let j1 := j0.tick_timers inp.dt
  -- if grounded { jumping.coyote_timer = jumping.coyote_duration; }
  let j2 := if inp.grounded then { j1 with coyote_timer := j1.coyote_duration } else j1
  -- if jumping.cooldown_timer <= 0.0 && grounded { jumping.reset_jump(); }
  let j3 := if j2.cooldown_timer ≤ 0 && inp.grounded then j2.reset_jump else j2
  let jump_inputted := inp.jumping && !j3.pressed_last_frame
  -- if jump_inputted && !grounded { jumping.buffer_timer = jumping.buffer_duration; }
  if jump_inputted && !inp.grounded
  then { j3 with buffer_timer := j3.buffer_duration } else j3

/-- The `just_jumped` binding (`movement.rs:393-395`).  The source reads
`pressed_last_frame` and `buffer_timer` from the state produced by the
bookkeeping above, but none of those steps changes `pressed_last_frame`,
and only `tick_timers` changes `buffer_timer`, so both are read off `j0`
directly here. -/
def just_jumped (j0 : Jump) (inp : JumpTickInput) : Bool :=
  (inp.jumping && !j0.pressed_last_frame) || Jump.tick_one inp.dt j0.buffer_timer > 0

/-- Did the branch at `movement.rs:401` fire on this tick?  This is the
exact condition `jumping.can_jump(grounded) && just_jumped` evaluated on
the state the branch sees. -/
def jump_fires (j0 : Jump) (inp : JumpTickInput) : Bool :=
  (jump_pre j0 inp).can_jump inp.grounded && just_jumped j0 inp

/-- The body of the `jump_force` system (`movement.rs:343-432`) for a single
entity and a single tick. -/
def jump_force (j0 : Jump) (inp : JumpTickInput) : JumpTickResult :=
  -- force.linear = Vec3::ZERO;
  let force : V3 ℚ := 0
  let j4 := jump_pre j0 inp
  -- velocity relative to the last viable ground, if any
  let velocity := inp.relative_velocity
  if jump_fires j0 inp then
    let initial_jump_force := j4.initial_force • inp.up_vector
    let negate_up_velocity :=
      (inp.mass / inp.dt) • ((-1 * (V3.dot velocity inp.up_vector)) • inp.up_vector)
    { jump := { j4 with
        remaining_jumps := j4.remaining_jumps - 1
        cooldown_timer := j4.cooldown_duration
        jump_timer := j4.jump_duration
        pressed_last_frame := inp.jumping }
      force := force + negate_up_velocity + initial_jump_force
      float_force := 0
      gravity_force := 0
      skip_ground_check_timer := inp.skip_ground_check_timer }
  else if j4.jumping then
    if !inp.jumping then
      -- cut the jump short; `jumping.reset_jump()` is commented out in the source
      let stop_force := (-j4.stop_force) • (velocity.project_onto inp.up_vector)
      { jump := { j4 with pressed_last_frame := inp.jumping }
        force := force + stop_force
        float_force := inp.float_force
        gravity_force := inp.gravity_force
        skip_ground_check_timer := inp.skip_ground_check_timer }
    else
      let jump := (j4.force * j4.decay_multiplier) • inp.up_vector
      { jump := { j4 with pressed_last_frame := inp.jumping }
        force := force + jump
        float_force := inp.float_force
        gravity_force := inp.gravity_force
        skip_ground_check_timer := j4.skip_ground_check_duration }
  else
    { jump := { j4 with pressed_last_frame := inp.jumping }
      force := force
      float_force := inp.float_force
      gravity_force := inp.gravity_force
      skip_ground_check_timer := inp.skip_ground_check_timer }

/-! ## Concrete jump scenarios -/

/-- A single-charge jump configuration (the `Jump::default` numbers with
`decay_function := none`), idle on the ground. -/
def groundedJump : Jump where
  initial_force := 30
  force := 20
  cooldown_duration := 1/4
  cooldown_timer := 0
  jump_duration := 1/10
  jump_timer := 0
  decay_function := none
  jumps := 1
  remaining_jumps := 1
  pressed_last_frame := false
  stop_force := 3/10
  buffer_timer := 0
  buffer_duration := 3/10
  first_jump_grounded := true
  coyote_duration := 1/5
  coyote_timer := 0
  skip_ground_check_duration := 0

/-- Tick input: grounded, jump pressed this frame, at rest. -/
def groundedPressInput : JumpTickInput where
  jumping := true
  grounded := true
  velocity := 0
  ground_point_velocity := none
  up_vector := ⟨0, 1, 0⟩
  mass := 1
  dt := 1/100
  float_force := ⟨0, 5, 0⟩
  gravity_force := ⟨0, -10, 0⟩
  skip_ground_check_timer := 0

/-- The single-charge controller just after the grounded jump, now airborne
with its jump and cooldown expired but the coyote window still open. -/
def airborneSpentJump : Jump :=
  { groundedJump with
    remaining_jumps := 0
    coyote_timer := 19/100
    pressed_last_frame := false }

/-- Tick input: airborne, jump pressed again (rising edge). -/
def airbornePressInput : JumpTickInput :=
  { groundedPressInput with grounded := false }

/-- A jump state with the coyote timer and configured coyote duration both
at `1/5` seconds. -/
def coyoteJump : Jump :=
  { groundedJump with coyote_timer := 1/5, coyote_duration := 1/5 }

/-- Tick input: airborne, jump not pressed, with `dt = 1/10`. -/
def airborneCoastInput : JumpTickInput :=
  { groundedPressInput with jumping := false, grounded := false, dt := 1/10 }

/-- A controller in the middle of a jump: the jump timer has `1/2` seconds
to run and the jump button was held last frame. -/
def stopJump : Jump :=
  { groundedJump with
    jump_timer := 1/2
    remaining_jumps := 0
    pressed_last_frame := true }

/-- Tick input: airborne and rising at 4 units/s, jump button released. -/
def releasedInput : JumpTickInput :=
  { groundedPressInput with
    jumping := false
    grounded := false
    velocity := (⟨0, 4, 0⟩ : V3 ℚ) }

/-! ## Ground data model, `src/controller/ground.rs` -/

/-- `CastResult` (ground.rs:412-420): details about a shape/ray-cast. -/
structure CastResult (α : Type) where
  toi : α
  normal : V3 α
  point : V3 α
deriving DecidableEq

/-- `Ground` (ground.rs:61-77): information about the ground entity and
where we touch it.  Entities are identifiers. -/
structure Ground (α : Type) where
  entity : ℕ
  cast : CastResult α
  stable : Bool
  viable : Bool
  angular_velocity : V3 α
  linear_velocity : V3 α
  point_velocity : V3 α
deriving DecidableEq

/-- `GroundCache` (ground.rs:152-162): current/last ground. -/
inductive GroundCache (α : Type) where
  /-- This will stay the ground until we leave the ground entirely. -/
  | Ground (ground : Ground α)
  /-- Cached ground. -/
  | Last (ground : Ground α)
  /-- No stable ground. -/
  | None
deriving DecidableEq

namespace GroundCache

variable {α : Type}

/-- `GroundCache::into_last` (ground.rs:177-185): archive this ground cast. -/
def into_last (c : GroundCache α) : GroundCache α :=
  match c with
  | .Ground ground => .Last ground
  | other => other

/-- `GroundCache::update` (ground.rs:164-175): a new cast replaces the
state, absence of one archives it. -/
def update (c : GroundCache α) (ground : Option (Wanderlust.Ground α)) : GroundCache α :=
  match ground with
  | some ground => .Ground ground
  | none => c.into_last

/-- `GroundCache::current` (ground.rs:187-193): ground we are currently
touching. -/
def current (c : GroundCache α) : Option (Wanderlust.Ground α) :=
  match c with
  | .Ground ground => some ground
  | _ => none

/-- `GroundCache::last` (ground.rs:195-201): last ground we touched,
including the ground we are currently touching. -/
def last (c : GroundCache α) : Option (Wanderlust.Ground α) :=
  match c with
  | .Ground ground | .Last ground => some ground
  | .None => none

end GroundCache

/-- `Spring` as used by the float variant (orientation.rs:29-32): a plain
strength and damping-ratio pair. -/
structure Spring where
  strength : ℚ
  damping : ℚ
deriving DecidableEq

/-- The `Float` component (orientation.rs:6-21). -/
structure Float where
  distance : ℚ
  min_offset : ℚ
  max_offset : ℚ
  spring : Spring
deriving DecidableEq

/-- The body of the `float_force` system (orientation.rs:46-81) for one
entity and one tick.  ECS-resolved inputs are explicit: `translation` is
`global.translation()`, `vl`/`va` the controller's linear/angular velocity,
`com` its center of mass, and `cache` the `GroundCast` component.
`damp_coefficient` is the already-computed scalar
`float.spring.damp_coefficient(mass.mass)` (the spring's damping ratio
times the critical damping `2*sqrt(strength*mass)`); its value is opaque
to this system body. -/
def float_force (float : Float) (cache : GroundCache ℚ)
    (translation up vl va com : V3 ℚ) (damp_coefficient : ℚ) : V3 ℚ :=
  -- force.linear = Vec3::ZERO; early `continue`s leave it zero
  match cache.current with
  | none => 0
  | some ground =>
    if !ground.viable then 0
    else
      let controller_point_velocity := vl + va.cross (0 - com)
      let vel_align := up.dot controller_point_velocity
      let ground_vel_align := up.dot ground.point_velocity
      let relative_velocity := vel_align - ground_vel_align
      let worldspace_diff := translation.dot up - ground.cast.point.dot up
      let displacement := float.distance - worldspace_diff
      if displacement > 0 then
        (displacement * float.spring.strength - relative_velocity * damp_coefficient) • up
      else 0

/-- The body of the `determine_groundedness` system (ground.rs:367-409) for
one entity and one tick: `cache` is the `ViableGroundCast` component,
`translation` the body's world translation and `vl` its linear velocity.
Returns the new `Grounded` flag. -/
def determine_groundedness (float : Float) (cache : GroundCache ℚ)
    (up translation vl : V3 ℚ) : Bool :=
  match cache.current with
  | none => false
  | some ground =>
    let up_velocity := vl.dot up
    let updated_toi := translation.dot up - ground.cast.point.dot up
    let offset := float.distance - updated_toi
    -- Loosen constraints based on velocity.
    let max := if up_velocity > float.max_offset
               then float.max_offset + up_velocity else float.max_offset
    let min := if up_velocity < float.min_offset
               then float.min_offset + up_velocity else float.min_offset
    decide (offset ≥ min) && decide (offset ≤ max)

/-! ## Force accumulation, `src/controller/mod.rs` -/

/-- `ForceSettings` (mod.rs:89-97). -/
structure ForceSettings where
  opposing_force_scale : ℚ
  opposing_movement_force_scale : ℚ
deriving DecidableEq

/-- `MovementForce` (movement.rs:64-72). -/
structure MovementForce where
  linear : V3 ℚ
  angular : V3 ℚ
deriving DecidableEq

/-- `ControllerForce` totals together with the `GroundForce` reaction, the
two outputs of `accumulate_forces`. -/
structure AccumulatedForce where
  linear : V3 ℚ
  angular : V3 ℚ
  ground_linear : V3 ℚ
  ground_angular : V3 ℚ
deriving DecidableEq

/-- The body of the `accumulate_forces` system (mod.rs:109-179) for one
entity and one tick.  `ground_com` is the ECS-resolved
`ground_global.transform_point(ground_mass.local_center_of_mass)` for the
current viable ground entity. -/
def accumulate_forces (settings : ForceSettings) (movement : MovementForce)
    (jump_linear float_linear gravity_linear upright_angular : V3 ℚ)
    (viable_ground : GroundCache ℚ) (ground_com : V3 ℚ) : AccumulatedForce :=
  let linear := movement.linear + jump_linear + float_linear + gravity_linear
  let angular := movement.angular + upright_angular
  let opposing_force :=
    -(settings.opposing_movement_force_scale • movement.linear
      + settings.opposing_force_scale • (jump_linear + float_linear))
  match viable_ground.current with
  | some ground =>
    { linear := linear
      angular := angular
      ground_linear := opposing_force
      ground_angular := (ground.cast.point - ground_com).cross opposing_force }
  | none =>
    { linear := linear
      angular := angular
      ground_linear := opposing_force
      ground_angular := 0 }

/-! ## Concrete ground scenarios -/

/-- A flat, viable, stable ground sample directly below the origin. -/
def flatGround : Ground ℚ where
  entity := 7
  cast := { toi := 1/2, normal := ⟨0, 1, 0⟩, point := 0 }
  stable := true
  viable := true
  angular_velocity := 0
  linear_velocity := 0
  point_velocity := 0

/-- The float configuration used in the concrete float scenarios. -/
def floatCfg : Float where
  distance := 1
  min_offset := -3/10
  max_offset := 1/20
  spring := { strength := 100, damping := 8/10 }

/-! ## Real-valued vector geometry

The operations below involve `sqrt`/`acos` and are translated over `ℝ`. -/

namespace V3

/-- `Vec3::ONE`. -/
def one : V3 ℝ := ⟨1, 1, 1⟩

/-- Componentwise absolute value, `Vec3::abs`. -/
def abs3 (a : V3 ℝ) : V3 ℝ := ⟨|a.x|, |a.y|, |a.z|⟩

/-- Euclidean length, `Vec3::length`. -/
noncomputable def length (a : V3 ℝ) : ℝ := Real.sqrt a.length_squared

/-- `Vec3::distance`. -/
noncomputable def distance (a b : V3 ℝ) : ℝ := (a - b).length

/-- `Vec3::normalize`: `self * length().recip()`.  Defined for nonzero
vectors; callers guard the zero case. -/
noncomputable def normalize (a : V3 ℝ) : V3 ℝ := (1 / a.length) • a

/-- `Vec3::normalize_or_zero`: the reciprocal length is finite and
positive exactly when the length is positive. -/
noncomputable def normalize_or_zero (a : V3 ℝ) : V3 ℝ :=
  if 0 < a.length then (1 / a.length) • a else 0

/-- `Vec3::clamp_length_max`: rescale to length `m` when longer than `m`. -/
noncomputable def clamp_length_max (a : V3 ℝ) (m : ℝ) : V3 ℝ :=
  if m * m < a.length_squared then (m / Real.sqrt a.length_squared) • a else a

/-- `Vec3::angle_between`: the arccosine of the dot product over the
product of lengths.  `glam` clamps the cosine into `[-1, 1]` before
`acos`; `Real.arccos` clamps the same way. -/
noncomputable def angle_between (a b : V3 ℝ) : ℝ :=
  Real.arccos (dot a b / Real.sqrt (a.length_squared * b.length_squared))

/-- `f32::signum` as used by `any_orthonormal_pair`: `1` for nonnegative
values, `-1` for negative ones. -/
def signum {α : Type} [LinearOrderedField α] (v : α) : α := if v < 0 then -1 else 1

/-- `Vec3::any_orthonormal_pair`, the branchless orthonormal-basis
construction (Duff et al.) implemented by `glam`; meaningful for
normalized inputs. -/
def any_orthonormal_pair {α : Type} [LinearOrderedField α] (n : V3 α) :
    V3 α × V3 α :=
  let sign := signum n.z
  let a := -1 / (sign + n.z)
  let b := n.x * n.y * a
  (⟨1 + sign * n.x * n.x * a, sign * b, -sign * n.x⟩,
   ⟨b, sign + n.y * n.y * a, -n.y⟩)

end V3

/-- `CastResult::down_tangent` (ground.rs:423-429): the tangential normal
biased downwards. -/
def CastResult.down_tangent {α : Type} [LinearOrderedField α]
    (c : CastResult α) (up_vector : V3 α) : V3 α :=
  match c.normal.any_orthonormal_pair with
  | (x, z) => -(up_vector.project_onto x + up_vector.project_onto z)

/-- `CastResult::viable` (ground.rs:431-434): the cast normal is within
`max_angle` of the up vector (strict comparison, as in the source). -/
noncomputable def CastResult.viable (c : CastResult ℝ) (up_vector : V3 ℝ)
    (max_angle : ℝ) : Bool :=
  |c.normal.angle_between up_vector| < max_angle

/-- The `GroundCaster` component (ground.rs:16-43); the cast collider and
the excluded-entity set live on the physics-engine side. -/
structure GroundCaster where
  skip_ground_check_timer : ℝ
  skip_ground_check_override : Bool
  cast_origin : V3 ℝ
  cast_length : ℝ
  unstable_ground_angle : ℝ
  max_ground_angle : ℝ

/-- `Ground::from_cast` (ground.rs:81-130), with the ECS/physics lookups
passed in resolved form: `parent` is `ctx.collider_parent(entity)`, `com`
the ground body's world-space center of mass
(`global.transform_point(mass.local_center_of_mass)`), and
`ground_linvel`/`ground_angvel` its velocity. -/
noncomputable def Ground.from_cast (entity : ℕ) (cast : CastResult ℝ)
    (up_vector : V3 ℝ) (caster : GroundCaster) (parent : Option ℕ)
    (com ground_linvel ground_angvel : V3 ℝ) : Ground ℝ :=
  let ground_entity := parent.getD entity
  let point_velocity := ground_linvel + ground_angvel.cross (cast.point - com)
  let sv : Bool × Bool :=
    if 0 < cast.normal.length then
      let viable := cast.viable up_vector caster.max_ground_angle
      let stable := cast.viable up_vector caster.unstable_ground_angle && viable
      (stable, viable)
    else (false, false)
  { entity := ground_entity
    cast := cast
    stable := sv.1
    viable := sv.2
    angular_velocity := ground_angvel
    linear_velocity := ground_linvel
    point_velocity := point_velocity }

/-! ## Normal reconstruction, ground.rs `sample_normals`/`cast` -/

/-- A ray hit as returned by the physics engine's
`cast_ray_and_get_normal`. -/
structure RayIntersection where
  toi : ℝ
  normal : V3 ℝ
  point : V3 ℝ

/-- The slop amount `FUDGE` (ground.rs:538). -/
noncomputable def FUDGE : ℝ := 5 / 100

/-- `GroundCastParams::sample_normals` (ground.rs:730-785): sample rays
around the contact point and average the normals of those landing near the
witness point, weighted by alignment with the up vector.  `ray_cast`
abstracts `ctx.cast_ray_and_get_normal(origin, ray_dir, max_toi, true,
filter)` as a function of the ray origin.  In the no-accepted-samples case
the float code divides 0.0 by 0.0 and the resulting NaN average fails the
final `> 0.0` guard; here division by zero yields the zero vector, which
fails the same guard. -/
noncomputable def sample_normals (direction : V3 ℝ) (cast : CastResult ℝ)
    (up_vector : V3 ℝ) (ray_cast : V3 ℝ → Option RayIntersection) :
    Option (V3 ℝ) :=
  let ray_dir := direction
  let ray_origin := cast.point + cast.toi • (-ray_dir)
  let (x, z) := ray_dir.any_orthonormal_pair
  let samples : List (V3 ℝ) := [-x + z, -x - z, x + z, x - z, 0]
  let valid_radius := FUDGE * 2
  let sampled := samples.filterMap fun sample =>
    match ray_cast (ray_origin - FUDGE • sample) with
    | none => none
    | some inter =>
      if 0 < inter.toi ∧ 0 < inter.normal.length_squared
         ∧ inter.point.distance cast.point < valid_radius
      then some inter.normal else none
  let sum : V3 ℝ := sampled.foldl (fun acc s => acc + |s.dot up_vector| • s) 0
  let weights : ℝ := sampled.foldl (fun acc s => acc + |s.dot up_vector|) 0
  let weighted_average : V3 ℝ := (1 / weights) • sum
  if 0 < weighted_average.length_squared then some weighted_average else none

/-- The tail of `GroundCastParams::cast` (ground.rs:600-610) once a hit
`(entity, cast0)` was found: replace the hit's normal by the reconstructed
`sample_normals` average and reject the result unless that normal is
usable. -/
noncomputable def ground_cast_with_hit (entity : ℕ) (cast0 : CastResult ℝ)
    (direction up_vector : V3 ℝ) (ray_cast : V3 ℝ → Option RayIntersection) :
    Option (ℕ × CastResult ℝ) :=
  match sample_normals direction cast0 up_vector ray_cast with
  | none => none
  | some sampled_normal =>
    let cast1 := { cast0 with normal := sampled_normal }
    if 0 < cast1.normal.length_squared then some (entity, cast1) else none

/-- `GroundCastParams::cast` (ground.rs:582-611), after penetration
correction: take the shape-cast hit (`cast_shape`), or else the ray-cast
fallback (`cast_ray`) — both external queries, passed resolved — then
post-process the hit through `ground_cast_with_hit`. -/
noncomputable def ground_cast (shape_cast ray_fallback : Option (ℕ × CastResult ℝ))
    (direction up_vector : V3 ℝ)
    (ray_cast : V3 ℝ → Option RayIntersection) : Option (ℕ × CastResult ℝ) :=
  match (match shape_cast with
         | some hit => some hit
         | none => ray_fallback) with
  | none => none
  | some (entity, cast0) =>
    ground_cast_with_hit entity cast0 direction up_vector ray_cast

/-! ## Movement resolver, `src/controller/movement.rs` lines 1-199 -/

/-- `Strength` (spring.rs:4-30). -/
inductive Strength where
  | Instant (raw : ℝ)
  | Scaled (raw : ℝ)
  | Raw (raw : ℝ)

/-- `Strength::get` (spring.rs:22-29). -/
noncomputable def Strength.get (s : Strength) (mass dt : ℝ) : ℝ :=
  match s with
  | .Instant raw => raw * mass / dt
  | .Scaled raw => raw * mass
  | .Raw raw => raw

/-- `ForceScale` (movement.rs:23-32). -/
inductive ForceScale where
  | Up
  | None
  | Vec3 (v : V3 ℝ)

/-- The `Movement` component (movement.rs:6-20). -/
structure Movement where
  acceleration : Strength
  max_speed : ℝ
  force_scale : ForceScale
  slip_force_scale : V3 ℝ

/-- `Movement::force_scale` (movement.rs:46-61), the method computing the
force-scale vector from the `ForceScale` mode and the gravity up vector
(named apart from the field of the same name). -/
noncomputable def Movement.force_scale_vec (m : Movement) (up_vector : V3 ℝ) : V3 ℝ :=
  match m.force_scale with
  | .Vec3 v => v
  | .Up =>
    if 0 < up_vector.length then
      let up := up_vector.normalize
      match up.any_orthonormal_pair with
      | (x, z) => x.abs3 + z.abs3
    else V3.one
  | .None => V3.one

/-- ECS-resolved inputs to one run of the `movement_force` system body
(movement.rs:75-199): `input_movement` is `ControllerInput::movement`,
`last_ground_vel` the ground-velocity term computed at movement.rs:133-149
for the current viable ground (zero without one), and
`friction_controller`/`friction_ground` the two `Friction` coefficients
looked up at movement.rs:152-162. -/
structure MovementTickInput where
  input_movement : V3 ℝ
  up_vector : V3 ℝ
  ground : GroundCache ℝ
  viable_ground : GroundCache ℝ
  velocity : V3 ℝ
  mass : ℝ
  dt : ℝ
  last_ground_vel : V3 ℝ
  friction_controller : ℝ
  friction_ground : ℝ

/-- The intermediate values of one `movement_force` run, so that theorems
can name the slip/movement/friction contributions of the final sum at
movement.rs:197. -/
structure MovementParts where
  force_scale : V3 ℝ
  goal_vel : V3 ℝ
  slip_vector : Option (V3 ℝ)
  slip_force : V3 ℝ
  movement_force : V3 ℝ
  friction_force : V3 ℝ
  linear : V3 ℝ

/-- The body of the `movement_force` system (movement.rs:75-199) for one
entity and one tick, returning every named intermediate. -/
noncomputable def movement_force_parts (m : Movement) (inp : MovementTickInput) :
    MovementParts :=
  let force_scale := m.force_scale_vec inp.up_vector
  let input_dir := inp.input_movement.clamp_length_max 1
  let goal_vel0 := m.max_speed • input_dir
  -- slip handling for current but unstable ground (movement.rs:113-129)
  let slip_goal : Option (V3 ℝ) × V3 ℝ :=
    match inp.ground.current with
    | some ground =>
      if ground.stable then (none, goal_vel0)
      else
        let down_tangent := ground.cast.down_tangent inp.up_vector
        let slip_vector := (down_tangent * force_scale).normalize_or_zero
        let alignment := goal_vel0.dot slip_vector
        let goal_vel1 :=
          if alignment < 0
          then goal_vel0 - (alignment • slip_vector) * m.slip_force_scale
          else goal_vel0
        (some slip_vector, goal_vel1)
    | none => (none, goal_vel0)
  let slip_vector := slip_goal.1
  let goal_vel := slip_goal.2
  let slip_force := inp.mass • (-(slip_vector.getD 0))
  let relative_velocity := (inp.velocity - inp.last_ground_vel) * force_scale
  let friction_coefficient :=
    match inp.viable_ground.current with
    | some _ => max inp.friction_controller inp.friction_ground
    | none => 25 / 100  -- air damping coefficient
  let strength := m.acceleration.get inp.mass inp.dt
  let movement_force0 := strength • goal_vel * force_scale
  let goal_dir := goal_vel.normalize_or_zero
  let goal_align := relative_velocity.dot goal_dir
  let difference := max (goal_vel.length - max goal_align 0) 0
  let displacement := difference • goal_dir
  let max_movement_force := (inp.mass / inp.dt) • displacement * force_scale
  let movement_force1 := movement_force0.clamp_length_max max_movement_force.length
  let friction_offset := min (max goal_align 0) goal_vel.length
  let friction_velocity := relative_velocity - friction_offset • goal_dir
  let friction_strength := Strength.Scaled (min (max friction_coefficient 0) 1 * 45)
  let friction_force :=
    friction_strength.get inp.mass inp.dt • friction_velocity * force_scale
  { force_scale := force_scale
    goal_vel := goal_vel
    slip_vector := slip_vector
    slip_force := slip_force
    movement_force := movement_force1
    friction_force := friction_force
    linear := movement_force1 - friction_force - slip_force }

/-- `force.linear` as produced by `movement_force` (movement.rs:106 and
197). -/
noncomputable def movement_force (m : Movement) (inp : MovementTickInput) : V3 ℝ :=
  (movement_force_parts m inp).linear

/-! ## Concrete real-valued scenarios -/

/-- A cast result whose normal is exactly the up vector. -/
noncomputable def unitCast : CastResult ℝ := { toi := 1, normal := ⟨0, 1, 0⟩, point := 0 }

/-- A ground caster whose viability and stability thresholds are both zero
radians. -/
noncomputable def steepCaster : GroundCaster where
  skip_ground_check_timer := 0
  skip_ground_check_override := false
  cast_origin := 0
  cast_length := 105/100
  unstable_ground_angle := 0
  max_ground_angle := 0

/-- A ground caster with positive thresholds (`1/2` and `1` radians). -/
noncomputable def defaultCaster : GroundCaster :=
  { steepCaster with unstable_ground_angle := 1/2, max_ground_angle := 1 }


/-- The `slip_vector` binding at movement.rs:116: the normalized
force-scaled downhill tangent of an unstable ground `g`. -/
noncomputable def slip_dir (m : Movement) (inp : MovementTickInput) (g : Ground ℝ) : V3 ℝ :=
  (g.cast.down_tangent inp.up_vector * m.force_scale_vec inp.up_vector).normalize_or_zero

/-- An unstable (too steep) ground sample on a 3-4-5 slope. -/
noncomputable def slopeGround : Ground ℝ where
  entity := 7
  cast := { toi := 1, normal := ⟨3/5, 4/5, 0⟩, point := 0 }
  stable := false
  viable := true
  angular_velocity := 0
  linear_velocity := 0
  point_velocity := 0

/-- A movement configuration with a horizontal-only force scale. -/
noncomputable def slipMovement : Movement where
  acceleration := .Scaled 10
  max_speed := 5
  force_scale := .Vec3 ⟨1, 0, 1⟩
  slip_force_scale := ⟨1, 1, 1⟩

/-- A tick standing still on the 3-4-5 slope. -/
noncomputable def slipInput : MovementTickInput where
  input_movement := 0
  up_vector := ⟨0, 1, 0⟩
  ground := .Ground slopeGround
  viable_ground := .Ground slopeGround
  velocity := 0
  mass := 1
  dt := 1/60
  last_ground_vel := 0
  friction_controller := 1/2
  friction_ground := 1/2

/-! ## Basic vector lemmas -/

namespace V3

variable {α : Type} [LinearOrderedField α]

@[simp] theorem zero_def : (0 : V3 α) = ⟨0, 0, 0⟩ := rfl
@[simp] theorem zero_x : (0 : V3 α).x = 0 := rfl
@[simp] theorem zero_y : (0 : V3 α).y = 0 := rfl
@[simp] theorem zero_z : (0 : V3 α).z = 0 := rfl
@[simp] theorem add_def (a b : V3 α) :
    a + b = ⟨a.x + b.x, a.y + b.y, a.z + b.z⟩ := rfl
@[simp] theorem sub_def (a b : V3 α) :
    a - b = ⟨a.x - b.x, a.y - b.y, a.z - b.z⟩ := rfl
@[simp] theorem neg_def (a : V3 α) : -a = ⟨-a.x, -a.y, -a.z⟩ := rfl
@[simp] theorem mul_def (a b : V3 α) :
    a * b = ⟨a.x * b.x, a.y * b.y, a.z * b.z⟩ := rfl
@[simp] theorem smul_def (s : α) (a : V3 α) :
    s • a = ⟨s * a.x, s * a.y, s * a.z⟩ := rfl

omit [LinearOrderedField α] in
theorem ext_iff {a b : V3 α} : a = b ↔ a.x = b.x ∧ a.y = b.y ∧ a.z = b.z := by
  cases a; cases b; simp

end V3

/-! ## Field-level lemmas about `Jump.tick_timers` and `jump_pre` -/

namespace Jump

@[simp] theorem tick_timers_jumps (j : Jump) (dt : ℚ) :
    (j.tick_timers dt).jumps = j.jumps := rfl
@[simp] theorem tick_timers_remaining (j : Jump) (dt : ℚ) :
    (j.tick_timers dt).remaining_jumps = j.remaining_jumps := rfl
@[simp] theorem tick_timers_pressed (j : Jump) (dt : ℚ) :
    (j.tick_timers dt).pressed_last_frame = j.pressed_last_frame := rfl
@[simp] theorem tick_timers_cooldown (j : Jump) (dt : ℚ) :
    (j.tick_timers dt).cooldown_timer = tick_one dt j.cooldown_timer := rfl
@[simp] theorem tick_timers_jump_timer (j : Jump) (dt : ℚ) :
    (j.tick_timers dt).jump_timer = tick_one dt j.jump_timer := rfl
@[simp] theorem tick_timers_buffer (j : Jump) (dt : ℚ) :
    (j.tick_timers dt).buffer_timer = tick_one dt j.buffer_timer := rfl
@[simp] theorem tick_timers_coyote_timer (j : Jump) (dt : ℚ) :
    (j.tick_timers dt).coyote_timer = j.coyote_timer := rfl
@[simp] theorem tick_timers_coyote_duration (j : Jump) (dt : ℚ) :
    (j.tick_timers dt).coyote_duration = tick_one dt j.coyote_duration := rfl
@[simp] theorem tick_timers_stop_force (j : Jump) (dt : ℚ) :
    (j.tick_timers dt).stop_force = j.stop_force := rfl

theorem can_jump_cooldown {jj : Jump} {g : Bool} (h : jj.can_jump g = true) :
    jj.cooldown_timer ≤ 0 ∧ 0 < jj.remaining_jumps := by
  simp only [can_jump] at h
  split_ifs at h
  simp_all

theorem can_jump_no_charges (jj : Jump) (g : Bool) (h : jj.remaining_jumps = 0) :
    jj.can_jump g = false := by
  simp only [can_jump]
  split_ifs <;> simp_all

end Jump

theorem jump_pre_jumps (j : Jump) (inp : JumpTickInput) :
    (jump_pre j inp).jumps = j.jumps := by
  simp only [jump_pre]
  split_ifs <;> simp_all [Jump.reset_jump]

theorem jump_pre_cooldown (j : Jump) (inp : JumpTickInput) :
    (jump_pre j inp).cooldown_timer = Jump.tick_one inp.dt j.cooldown_timer := by
  simp only [jump_pre]
  split_ifs <;> simp_all [Jump.reset_jump]

theorem jump_pre_stop_force (j : Jump) (inp : JumpTickInput) :
    (jump_pre j inp).stop_force = j.stop_force := by
  simp only [jump_pre]
  split_ifs <;> simp_all [Jump.reset_jump]

theorem jump_pre_coyote_timer_airborne (j : Jump) (inp : JumpTickInput)
    (h : inp.grounded = false) :
    (jump_pre j inp).coyote_timer = j.coyote_timer := by
  simp only [jump_pre, h]
  split_ifs <;> simp_all [Jump.reset_jump]

theorem jump_pre_coyote_duration (j : Jump) (inp : JumpTickInput) :
    (jump_pre j inp).coyote_duration = Jump.tick_one inp.dt j.coyote_duration := by
  simp only [jump_pre]
  split_ifs <;> simp_all [Jump.reset_jump]

theorem jump_pre_remaining_airborne (j : Jump) (inp : JumpTickInput)
    (h : inp.grounded = false) :
    (jump_pre j inp).remaining_jumps = j.remaining_jumps := by
  simp only [jump_pre, h]
  split_ifs <;> simp_all [Jump.reset_jump]

theorem jump_pre_jump_timer_airborne (j : Jump) (inp : JumpTickInput)
    (h : inp.grounded = false) :
    (jump_pre j inp).jump_timer = Jump.tick_one inp.dt j.jump_timer := by
  simp only [jump_pre, h]
  split_ifs <;> simp_all [Jump.reset_jump]

theorem jump_pre_remaining_grounded_reset (j : Jump) (inp : JumpTickInput)
    (hg : inp.grounded = true) (hc : Jump.tick_one inp.dt j.cooldown_timer ≤ 0) :
    (jump_pre j inp).remaining_jumps = j.jumps := by
  simp only [jump_pre, hg]
  split_ifs <;> simp_all [Jump.reset_jump]

theorem jump_force_fired_remaining (j : Jump) (inp : JumpTickInput)
    (hf : jump_fires j inp = true) :
    (jump_force j inp).jump.remaining_jumps = (jump_pre j inp).remaining_jumps - 1 := by
  unfold jump_force
  simp [hf]

/-! ## Claim theorems: jump state machine -/

/-- C1 counterexample.  With a single charge, firing the jump while
grounded does NOT leave `remaining_jumps` unchanged: it drops from 1 to 0
(the decrement at `movement.rs:412` is unconditional, not airborne-only),
and the attempted second jump just after becoming airborne does not
consume a charge — it does not fire at all and yields zero force, even
though the coyote window is still open and the cooldown has expired. -/
theorem grounded_jump_consumes_charge_cex :
    groundedPressInput.grounded = true
    ∧ jump_fires groundedJump groundedPressInput = true
    ∧ groundedJump.remaining_jumps = 1
    ∧ (jump_force groundedJump groundedPressInput).jump.remaining_jumps = 0
    ∧ airborneSpentJump.coyote_timer > 0
    ∧ airborneSpentJump.cooldown_timer ≤ 0
    ∧ jump_fires airborneSpentJump airbornePressInput = false
    ∧ (jump_force airborneSpentJump airbornePressInput).force = 0 := by
  refine ⟨rfl, ?_, rfl, ?_, by norm_num [airborneSpentJump, groundedJump], ?_, ?_, ?_⟩ <;>
    norm_num [jump_force, jump_fires, jump_pre, just_jumped, Jump.can_jump,
      Jump.reset_jump, Jump.jumping, Jump.tick_timers, Jump.tick_one,
      groundedJump, groundedPressInput, airborneSpentJump, airbornePressInput]

/-- C1 (amended).  For a single-charge controller (`jumps = 1`), a jump
that fires while grounded consumes the sole charge: `remaining_jumps`
(reset to `jumps` by the grounded reset that firing implies) ends the tick
at 0.  Consequently any airborne tick with no charges left cannot fire a
jump, and produces no jump force once the jump timer has expired,
regardless of the coyote timer or buffered/rising-edge input. -/
theorem single_charge_grounded_jump_consumes_charge
    (j j2 : Jump) (inp inp2 : JumpTickInput)
    (hjumps : j.jumps = 1) (hg : inp.grounded = true)
    (hfires : jump_fires j inp = true)
    (h2rem : j2.remaining_jumps = 0)
    (h2air : inp2.grounded = false) (h2timer : j2.jump_timer = 0) :
    (jump_force j inp).jump.remaining_jumps = 0
    ∧ jump_fires j2 inp2 = false
    ∧ (jump_force j2 inp2).force = 0 := by
  have hnf : jump_fires j2 inp2 = false := by
    unfold jump_fires
    rw [Jump.can_jump_no_charges _ _
      (by rw [jump_pre_remaining_airborne _ _ h2air, h2rem])]
    simp
  refine ⟨?_, hnf, ?_⟩
  · have hcj : (jump_pre j inp).can_jump inp.grounded = true := by
      unfold jump_fires at hfires
      exact (Bool.and_eq_true_iff.mp hfires).1
    have hcool := (Jump.can_jump_cooldown hcj).1
    rw [jump_pre_cooldown] at hcool
    rw [jump_force_fired_remaining _ _ hfires,
      jump_pre_remaining_grounded_reset _ _ hg hcool, hjumps]
  · unfold jump_force
    rw [hnf]
    simp only [Bool.false_eq_true, if_false, Jump.jumping,
      jump_pre_jump_timer_airborne _ _ h2air, h2timer]
    norm_num [Jump.tick_one]

/-- C1 witness: the amended statement applied to the concrete grounded
press and the concrete spent airborne state. -/
theorem single_charge_grounded_jump_consumes_charge_witness :
    (jump_force groundedJump groundedPressInput).jump.remaining_jumps = 0
    ∧ jump_fires airborneSpentJump airbornePressInput = false
    ∧ (jump_force airborneSpentJump airbornePressInput).force = 0 :=
  single_charge_grounded_jump_consumes_charge
    groundedJump airborneSpentJump groundedPressInput airbornePressInput
    rfl rfl
    (by norm_num [jump_fires, jump_pre, just_jumped, Jump.can_jump,
      Jump.reset_jump, Jump.tick_timers, Jump.tick_one,
      groundedJump, groundedPressInput])
    rfl rfl rfl

/-- C2: `Jump::tick_timers` never decrements `coyote_timer`; instead it
decrements the configured `coyote_duration` (the fourth `tick` call at
`movement.rs:292` passes the wrong field).  Shown generally, and at the
concrete failing input: an airborne tick with `dt = 1/10` leaves
`coyote_timer` at `1/5` and cuts `coyote_duration` to `1/10`. -/
theorem tick_timers_decrements_coyote_duration_not_timer :
    (∀ (j : Jump) (dt : ℚ), (j.tick_timers dt).coyote_timer = j.coyote_timer)
    ∧ (∀ (j : Jump) (dt : ℚ),
        (j.tick_timers dt).coyote_duration = Jump.tick_one dt j.coyote_duration)
    ∧ (jump_force coyoteJump airborneCoastInput).jump.coyote_timer = 1/5
    ∧ (jump_force coyoteJump airborneCoastInput).jump.coyote_duration = 1/10 := by
  refine ⟨fun j dt => rfl, fun j dt => rfl, ?_, ?_⟩ <;>
    norm_num [jump_force, jump_fires, jump_pre, just_jumped, Jump.can_jump,
      Jump.reset_jump, Jump.jumping, Jump.tick_timers, Jump.tick_one,
      coyoteJump, groundedJump, airborneCoastInput, groundedPressInput]

/-- C3 counterexample.  Releasing the jump input while the jump timer has
`1/2` s to run applies the stop force, but does NOT end the timer (the
`reset_jump()` call is commented out at `movement.rs:420`): the timer
merely ticks down to `49/100`, and on the next tick the stop force is
applied again. -/
theorem jump_release_keeps_timer_cex :
    (jump_force stopJump releasedInput).force = ⟨0, -6/5, 0⟩
    ∧ (jump_force stopJump releasedInput).jump.jump_timer = 49/100
    ∧ (jump_force (jump_force stopJump releasedInput).jump releasedInput).force
        = ⟨0, -6/5, 0⟩ := by
  refine ⟨?_, ?_, ?_⟩ <;>
    norm_num [jump_force, jump_fires, jump_pre, just_jumped, Jump.can_jump,
      Jump.reset_jump, Jump.jumping, Jump.tick_timers, Jump.tick_one,
      JumpTickInput.relative_velocity, V3.project_onto, V3.dot, V3.length_squared,
      stopJump, groundedJump, releasedInput, groundedPressInput]

/-- C3 (amended).  On an airborne tick with the jump input released, no
jump firing, and the jump timer still positive after ticking, the one-shot
downward stop force `-stop_force * project(velocity, up)` is applied —
but the jump timer is NOT set to 0: it continues ticking down and remains
positive, so the stop force recurs on subsequent such ticks until the
timer expires on its own. -/
theorem jump_release_stop_force_each_tick (j : Jump) (inp : JumpTickInput)
    (hrel : inp.jumping = false) (hair : inp.grounded = false)
    (hnf : jump_fires j inp = false)
    (ht : 0 < Jump.tick_one inp.dt j.jump_timer) :
    (jump_force j inp).force =
      (-j.stop_force) • (inp.relative_velocity.project_onto inp.up_vector)
    ∧ (jump_force j inp).jump.jump_timer = Jump.tick_one inp.dt j.jump_timer
    ∧ 0 < (jump_force j inp).jump.jump_timer := by
  unfold jump_force
  rw [hnf]
  simp only [Bool.false_eq_true, if_false, Jump.jumping,
    jump_pre_jump_timer_airborne _ _ hair, hrel]
  simp [ht, jump_pre_stop_force]

/-- C3 witness: the amended statement at the concrete released state. -/
theorem jump_release_stop_force_each_tick_witness :
    (jump_force stopJump releasedInput).force =
      (-stopJump.stop_force) •
        (releasedInput.relative_velocity.project_onto releasedInput.up_vector)
    ∧ (jump_force stopJump releasedInput).jump.jump_timer
        = Jump.tick_one releasedInput.dt stopJump.jump_timer
    ∧ 0 < (jump_force stopJump releasedInput).jump.jump_timer :=
  jump_release_stop_force_each_tick stopJump releasedInput rfl rfl
    (by norm_num [jump_fires, jump_pre, just_jumped, Jump.can_jump,
      Jump.reset_jump, Jump.tick_timers, Jump.tick_one,
      stopJump, groundedJump, releasedInput, groundedPressInput])
    (by norm_num [Jump.tick_one, stopJump, groundedJump, releasedInput,
      groundedPressInput])

/-! ## Claim theorems: float suspension, groundedness, force accumulation -/

/-- C4 counterexample.  With current viable ground but a measured gap (2)
exceeding the target distance (1), the code produces zero float force
(the spring branch at orientation.rs:76 only runs for positive
displacement) while the claimed formula
`up * (strength*(target - gap) - damping*relvel)` yields `(0,-100,0) ≠ 0`. -/
theorem float_force_formula_cex :
    float_force floatCfg (GroundCache.Ground flatGround) ⟨0, 2, 0⟩ ⟨0, 1, 0⟩ 0 0 0 1 = 0
    ∧ ((floatCfg.spring.strength * (floatCfg.distance - 2) - 1 * 0) • (⟨0, 1, 0⟩ : V3 ℚ))
        = ⟨0, -100, 0⟩
    ∧ ((⟨0, -100, 0⟩ : V3 ℚ) ≠ 0) := by
  refine ⟨?_, ?_, ?_⟩ <;>
    norm_num [float_force, GroundCache.current, floatCfg, flatGround,
      V3.dot, V3.cross, V3.ext_iff]

/-- C4 (amended).  On a tick with current viable ground the float force
equals `up * (strength*(target_distance - measured_gap) -
damp_coefficient*relative_vertical_velocity)` — with the relative vertical
velocity measured between the body and the ground contact point — but only
when `target_distance - measured_gap > 0`; when the gap meets or exceeds
the target the force is zero (the spring pushes but never pulls down).  In
particular the force is zero when the gap equals the target, and no float
force is produced without current viable ground. -/
theorem float_force_spring_gated (float : Float) (cache : GroundCache ℚ)
    (translation up vl va com : V3 ℚ) (dc : ℚ) :
    (∀ g, cache.current = some g → g.viable = true →
      ((0 < float.distance - (translation.dot up - g.cast.point.dot up) →
        float_force float cache translation up vl va com dc
          = ((float.distance - (translation.dot up - g.cast.point.dot up))
              * float.spring.strength
             - (up.dot (vl + va.cross (0 - com)) - up.dot g.point_velocity) * dc) • up)
       ∧ (float.distance - (translation.dot up - g.cast.point.dot up) ≤ 0 →
          float_force float cache translation up vl va com dc = 0)))
    ∧ (cache.current = none → float_force float cache translation up vl va com dc = 0)
    ∧ (∀ g, cache.current = some g → g.viable = false →
        float_force float cache translation up vl va com dc = 0) := by
  refine ⟨?_, ?_, ?_⟩
  · intro g hg hv
    constructor
    · intro hpos
      simp [float_force, hg, hv, hpos]
    · intro hnp
      simp [float_force, hg, hv, not_lt.mpr hnp]
  · intro h
    simp [float_force, h]
  · intro g hg hv
    simp [float_force, hg, hv]

/-- C4 witness: the spring formula at a concrete below-target hover. -/
theorem float_force_spring_gated_witness :
    float_force floatCfg (GroundCache.Ground flatGround) ⟨0, 1/2, 0⟩ ⟨0, 1, 0⟩ 0 0 0 1
      = ((floatCfg.distance
            - ((⟨0, 1/2, 0⟩ : V3 ℚ).dot ⟨0, 1, 0⟩ - flatGround.cast.point.dot ⟨0, 1, 0⟩))
          * floatCfg.spring.strength
         - ((⟨0, 1, 0⟩ : V3 ℚ).dot ((0 : V3 ℚ) + V3.cross (0 : V3 ℚ) (0 - 0))
            - (⟨0, 1, 0⟩ : V3 ℚ).dot flatGround.point_velocity) * 1) • ⟨0, 1, 0⟩ :=
  ((float_force_spring_gated floatCfg (GroundCache.Ground flatGround)
      ⟨0, 1/2, 0⟩ ⟨0, 1, 0⟩ 0 0 0 1).1 flatGround rfl rfl).1
    (by norm_num [floatCfg, flatGround, V3.dot])

/-- C6: with a current viable ground sample, groundedness is exactly the
band test: `offset = target_distance - (vertical position - contact point
vertical position)` lies within the effective band, whose max is
`max_offset + v` when `v > max_offset` (else `max_offset`) and whose min
is `min_offset + v` when `v < min_offset` (else `min_offset`), where `v`
is the vertical velocity; without a current sample the flag is false. -/
theorem determine_groundedness_band_test (float : Float) (cache : GroundCache ℚ)
    (up translation vl : V3 ℚ) :
    (∀ g, cache.current = some g →
      (determine_groundedness float cache up translation vl = true ↔
        ((if vl.dot up < float.min_offset then float.min_offset + vl.dot up
          else float.min_offset)
          ≤ float.distance - (translation.dot up - g.cast.point.dot up)
         ∧ float.distance - (translation.dot up - g.cast.point.dot up)
          ≤ (if float.max_offset < vl.dot up then float.max_offset + vl.dot up
             else float.max_offset))))
    ∧ (cache.current = none →
        determine_groundedness float cache up translation vl = false) := by
  constructor
  · intro g hg
    simp [determine_groundedness, hg, ge_iff_le, and_comm]
  · intro h
    simp [determine_groundedness, h]

/-- C6 witness: hovering exactly at the target distance with zero velocity
is grounded. -/
theorem determine_groundedness_band_test_witness :
    determine_groundedness floatCfg (GroundCache.Ground flatGround)
      ⟨0, 1, 0⟩ ⟨0, 1, 0⟩ 0 = true :=
  ((determine_groundedness_band_test floatCfg (GroundCache.Ground flatGround)
      ⟨0, 1, 0⟩ ⟨0, 1, 0⟩ 0).1 flatGround rfl).mpr
    (by norm_num [floatCfg, flatGround, V3.dot])

/-- C9: the accumulated force is the stated sum of the per-system forces;
the reaction applied to the ground body is the negation of the movement
force scaled by the movement coefficient plus the jump+float forces scaled
by the push coefficient (so zero coefficients disable it), and its torque
uses the contact point relative to the ground body's center of mass as
lever arm (zero torque without current viable ground). -/
theorem accumulate_forces_totals (settings : ForceSettings) (movement : MovementForce)
    (jl fl gl ua : V3 ℚ) (vg : GroundCache ℚ) (gcom : V3 ℚ) :
    ((accumulate_forces settings movement jl fl gl ua vg gcom).linear
        = movement.linear + jl + fl + gl)
    ∧ ((accumulate_forces settings movement jl fl gl ua vg gcom).angular
        = movement.angular + ua)
    ∧ ((accumulate_forces settings movement jl fl gl ua vg gcom).ground_linear
        = -(settings.opposing_movement_force_scale • movement.linear
            + settings.opposing_force_scale • (jl + fl)))
    ∧ (∀ g, vg.current = some g →
        (accumulate_forces settings movement jl fl gl ua vg gcom).ground_angular
          = (g.cast.point - gcom).cross
              (accumulate_forces settings movement jl fl gl ua vg gcom).ground_linear)
    ∧ (vg.current = none →
        (accumulate_forces settings movement jl fl gl ua vg gcom).ground_angular = 0)
    ∧ (settings.opposing_movement_force_scale = 0 → settings.opposing_force_scale = 0 →
        (accumulate_forces settings movement jl fl gl ua vg gcom).ground_linear = 0) := by
  refine ⟨?_, ?_, ?_, ?_, ?_, ?_⟩
  · cases vg <;> simp [accumulate_forces, GroundCache.current]
  · cases vg <;> simp [accumulate_forces, GroundCache.current]
  · cases vg <;> simp [accumulate_forces, GroundCache.current]
  · intro g hg
    cases vg <;> simp_all [accumulate_forces, GroundCache.current]
  · intro h
    cases vg <;> simp_all [accumulate_forces, GroundCache.current]
  · intro h1 h2
    cases vg <;> simp [accumulate_forces, GroundCache.current, h1, h2]

/-- C9 witness: the ground torque at a concrete viable-ground tick. -/
theorem accumulate_forces_totals_witness :
    (accumulate_forces ⟨1, 0⟩ ⟨⟨1, 0, 0⟩, 0⟩ ⟨0, 30, 0⟩ ⟨0, 5, 0⟩ ⟨0, -10, 0⟩ 0
        (GroundCache.Ground flatGround) 0).ground_angular
      = (flatGround.cast.point - 0).cross
          (accumulate_forces ⟨1, 0⟩ ⟨⟨1, 0, 0⟩, 0⟩ ⟨0, 30, 0⟩ ⟨0, 5, 0⟩ ⟨0, -10, 0⟩ 0
            (GroundCache.Ground flatGround) 0).ground_linear :=
  (accumulate_forces_totals ⟨1, 0⟩ ⟨⟨1, 0, 0⟩, 0⟩ ⟨0, 30, 0⟩ ⟨0, 5, 0⟩ ⟨0, -10, 0⟩ 0
      (GroundCache.Ground flatGround) 0).2.2.2.1 flatGround rfl


/-! ## Real-vector lemmas and angle evaluations -/

namespace V3

theorem length_squared_nonneg {α : Type} [LinearOrderedField α] (a : V3 α) :
    0 ≤ a.length_squared :=
  add_nonneg (add_nonneg (mul_self_nonneg _) (mul_self_nonneg _)) (mul_self_nonneg _)

theorem length_squared_eq_zero_iff {α : Type} [LinearOrderedField α] (a : V3 α) :
    a.length_squared = 0 ↔ a = 0 := by
  constructor
  · intro h
    simp only [length_squared, dot] at h
    have hx : a.x * a.x = 0 ∧ a.y * a.y = 0 ∧ a.z * a.z = 0 := by
      constructor
      · nlinarith [mul_self_nonneg a.x, mul_self_nonneg a.y, mul_self_nonneg a.z]
      constructor
      · nlinarith [mul_self_nonneg a.x, mul_self_nonneg a.y, mul_self_nonneg a.z]
      · nlinarith [mul_self_nonneg a.x, mul_self_nonneg a.y, mul_self_nonneg a.z]
    simp [ext_iff, mul_self_eq_zero.mp hx.1, mul_self_eq_zero.mp hx.2.1,
      mul_self_eq_zero.mp hx.2.2]
  · intro h
    simp [h, length_squared, dot]

theorem length_squared_pos_iff {α : Type} [LinearOrderedField α] (a : V3 α) :
    0 < a.length_squared ↔ a ≠ 0 := by
  constructor
  · intro h ha
    rw [ha] at h
    simp [length_squared, dot] at h
  · intro h
    rcases lt_or_eq_of_le (length_squared_nonneg a) with hlt | heq
    · exact hlt
    · exact absurd ((length_squared_eq_zero_iff a).mp heq.symm) h

theorem length_pos_iff (a : V3 ℝ) : 0 < a.length ↔ a ≠ 0 := by
  rw [length, Real.sqrt_pos, length_squared_pos_iff]

theorem length_nonneg (a : V3 ℝ) : 0 ≤ a.length := Real.sqrt_nonneg _

end V3

theorem angle_between_self_unit_up :
    V3.angle_between (⟨0, 1, 0⟩ : V3 ℝ) ⟨0, 1, 0⟩ = 0 := by
  have h : V3.dot (⟨0, 1, 0⟩ : V3 ℝ) ⟨0, 1, 0⟩ = 1 := by
    norm_num [V3.dot]
  have h2 : (V3.length_squared (⟨0, 1, 0⟩ : V3 ℝ))
      * (V3.length_squared (⟨0, 1, 0⟩ : V3 ℝ)) = 1 := by
    norm_num [V3.length_squared, V3.dot]
  rw [V3.angle_between, h, h2]
  rw [Real.sqrt_one]
  norm_num [Real.arccos_one]

theorem unit_up_length : V3.length (⟨0, 1, 0⟩ : V3 ℝ) = 1 := by
  rw [V3.length]
  norm_num [V3.length_squared, V3.dot]

/-! ## Claim theorems: ground classification, cache, and normal reconstruction -/

/-- C7 counterexample.  At a normal-to-up angle exactly equal to the
viability threshold (both zero here), the claim says the sample is viable
(angle ≤ threshold) but the code's strict comparison
(`angle_between(...).abs() < max_angle`, ground.rs:433) classifies it as
not viable, both in `CastResult::viable` and through `Ground::from_cast`. -/
theorem viable_threshold_boundary_cex :
    V3.angle_between unitCast.normal ⟨0, 1, 0⟩ ≤ steepCaster.max_ground_angle
    ∧ unitCast.viable ⟨0, 1, 0⟩ steepCaster.max_ground_angle = false
    ∧ (Ground.from_cast 3 unitCast ⟨0, 1, 0⟩ steepCaster none 0 0 0).viable = false := by
  have ha : V3.angle_between unitCast.normal ⟨0, 1, 0⟩ = 0 := by
    simpa [unitCast] using angle_between_self_unit_up
  have hv : unitCast.viable ⟨0, 1, 0⟩ steepCaster.max_ground_angle = false := by
    simp [CastResult.viable, ha, steepCaster]
  refine ⟨by rw [ha]; simp [steepCaster], hv, ?_⟩
  have hl : 0 < unitCast.normal.length := by
    simpa [unitCast] using (by rw [unit_up_length]; norm_num : (0:ℝ) < V3.length ⟨0,1,0⟩)
  simp [Ground.from_cast, hl, hv]

/-- C7 (amended).  `Ground::from_cast` classifies a sample viable iff the
reconstructed normal has positive length and its angle to the up vector is
STRICTLY below the viability threshold, and stable iff additionally
strictly below the stability threshold; hence stable implies viable, an
angle at or above the viability threshold is never viable, and a
zero-length normal yields neither stable nor viable. -/
theorem from_cast_viability (e : ℕ) (c : CastResult ℝ) (up : V3 ℝ)
    (caster : GroundCaster) (p : Option ℕ) (com lv av : V3 ℝ) :
    ((Ground.from_cast e c up caster p com lv av).viable = true
      ↔ 0 < c.normal.length ∧ |c.normal.angle_between up| < caster.max_ground_angle)
    ∧ ((Ground.from_cast e c up caster p com lv av).stable = true
      ↔ 0 < c.normal.length
        ∧ |c.normal.angle_between up| < caster.unstable_ground_angle
        ∧ |c.normal.angle_between up| < caster.max_ground_angle)
    ∧ ((Ground.from_cast e c up caster p com lv av).stable = true →
        (Ground.from_cast e c up caster p com lv av).viable = true)
    ∧ (caster.max_ground_angle ≤ |c.normal.angle_between up| →
        (Ground.from_cast e c up caster p com lv av).viable = false)
    ∧ (c.normal.length = 0 →
        (Ground.from_cast e c up caster p com lv av).stable = false
        ∧ (Ground.from_cast e c up caster p com lv av).viable = false) := by
  by_cases hl : 0 < c.normal.length
  · refine ⟨?_, ?_, ?_, ?_, ?_⟩
    · simp [Ground.from_cast, hl, CastResult.viable]
    · simp [Ground.from_cast, hl, CastResult.viable, and_assoc]
    · simp [Ground.from_cast, hl, CastResult.viable]
    · intro hge
      simp [Ground.from_cast, hl, CastResult.viable, not_lt.mpr hge]
    · intro h0
      exact absurd h0 (ne_of_gt hl)
  · refine ⟨?_, ?_, ?_, ?_, ?_⟩ <;>
      simp [Ground.from_cast, hl]

/-- C7 witness: an up-facing normal is viable and stable under positive
thresholds. -/
theorem from_cast_viability_witness :
    (Ground.from_cast 3 unitCast ⟨0, 1, 0⟩ defaultCaster none 0 0 0).viable = true :=
  (from_cast_viability 3 unitCast ⟨0, 1, 0⟩ defaultCaster none 0 0 0).1.mpr
    ⟨by
      have := unit_up_length
      simp only [unitCast]
      rw [this]
      norm_num,
     by
      have ha : V3.angle_between unitCast.normal ⟨0, 1, 0⟩ = 0 := by
        simpa [unitCast] using angle_between_self_unit_up
      rw [ha]
      simp [defaultCaster, steepCaster]⟩

/-- C5: the ground cache update installs any new sample as `Current`
(`Ground`), demotes `Current` to `Last` on a missed tick rather than
clearing (and never resurrects `Last`/`None`); the grounded flag computed
by `determine_groundedness` can only be true when the cache is in the
`Current` state; and any cast accepted by the viable-cast filter
(`cast.viable` true, usable normal) is stored with `viable = true`. -/
theorem ground_cache_lifecycle :
    (∀ (c : GroundCache ℚ) (g : Ground ℚ), c.update (some g) = .Ground g)
    ∧ (∀ g : Ground ℚ, (GroundCache.Ground g).update none = .Last g)
    ∧ (∀ g : Ground ℚ, (GroundCache.Last g).update none = .Last g)
    ∧ ((GroundCache.None : GroundCache ℚ).update none = .None)
    ∧ (∀ (float : Float) (cache : GroundCache ℚ) (up translation vl : V3 ℚ),
        determine_groundedness float cache up translation vl = true →
        ∃ g, cache = .Ground g)
    ∧ (∀ (e : ℕ) (c : CastResult ℝ) (up : V3 ℝ) (caster : GroundCaster)
        (p : Option ℕ) (com lv av : V3 ℝ),
        c.viable up caster.max_ground_angle = true → 0 < c.normal.length →
        (Ground.from_cast e c up caster p com lv av).viable = true) := by
  refine ⟨?_, ?_, ?_, ?_, ?_, ?_⟩
  · intro c g
    rfl
  · intro g
    rfl
  · intro g
    rfl
  · rfl
  · intro float cache up translation vl h
    cases cache with
    | Ground g => exact ⟨g, rfl⟩
    | Last g => simp [determine_groundedness, GroundCache.current] at h
    | None => simp [determine_groundedness, GroundCache.current] at h
  · intro e c up caster p com lv av hv hl
    simp [Ground.from_cast, hl, hv]

/-- C5 witness: concrete cache transitions and a concrete viable store. -/
theorem ground_cache_lifecycle_witness :
    (GroundCache.Last flatGround).update (some flatGround) = .Ground flatGround
    ∧ (GroundCache.Ground flatGround).update none = .Last flatGround
    ∧ (Ground.from_cast 3 unitCast ⟨0, 1, 0⟩ defaultCaster none 0 0 0).viable = true :=
  ⟨ground_cache_lifecycle.1 (GroundCache.Last flatGround) flatGround,
   ground_cache_lifecycle.2.1 flatGround,
   ground_cache_lifecycle.2.2.2.2.2 3 unitCast ⟨0, 1, 0⟩ defaultCaster none 0 0 0
     (by
       have ha : V3.angle_between unitCast.normal ⟨0, 1, 0⟩ = 0 := by
         simpa [unitCast] using angle_between_self_unit_up
       simp [CastResult.viable, ha, defaultCaster, steepCaster])
     (by
       simp only [unitCast]
       rw [unit_up_length]
       norm_num)⟩

/-- C10: when normal reconstruction degenerates — no ray sample accepted
(so the weighted average divides by a zero weight sum) — `sample_normals`
and the whole ground cast return `none`; and any returned sample's normal
provably has positive squared length, so no zero (or, in the float
original, NaN) normal is ever produced. -/
theorem degenerate_normal_rejected :
    (∀ (direction : V3 ℝ) (cast : CastResult ℝ) (up_vector : V3 ℝ)
       (rc : V3 ℝ → Option RayIntersection),
       (∀ o, rc o = none) → sample_normals direction cast up_vector rc = none)
    ∧ (∀ (direction : V3 ℝ) (cast : CastResult ℝ) (up_vector : V3 ℝ)
        (rc : V3 ℝ → Option RayIntersection) (n : V3 ℝ),
        sample_normals direction cast up_vector rc = some n → 0 < n.length_squared)
    ∧ (∀ (sc rf : Option (ℕ × CastResult ℝ)) (direction up_vector : V3 ℝ)
        (rc : V3 ℝ → Option RayIntersection) (e : ℕ) (c : CastResult ℝ),
        ground_cast sc rf direction up_vector rc = some (e, c) →
        0 < c.normal.length_squared)
    ∧ (∀ (sc rf : Option (ℕ × CastResult ℝ)) (direction up_vector : V3 ℝ)
        (rc : V3 ℝ → Option RayIntersection),
        (∀ o, rc o = none) → ground_cast sc rf direction up_vector rc = none) := by
  have hnone : ∀ (direction : V3 ℝ) (cast : CastResult ℝ) (up_vector : V3 ℝ)
      (rc : V3 ℝ → Option RayIntersection),
      (∀ o, rc o = none) → sample_normals direction cast up_vector rc = none := by
    intro direction cast up_vector rc h
    simp [sample_normals, h, V3.length_squared, V3.dot]
  have hhit : ∀ (e0 : ℕ) (c0 : CastResult ℝ) (direction up_vector : V3 ℝ)
      (rc : V3 ℝ → Option RayIntersection) (e : ℕ) (c : CastResult ℝ),
      ground_cast_with_hit e0 c0 direction up_vector rc = some (e, c) →
      0 < c.normal.length_squared := by
    intro e0 c0 direction up_vector rc e c h
    simp only [ground_cast_with_hit] at h
    rcases hs : sample_normals direction c0 up_vector rc with - | n <;> rw [hs] at h
    · cases h
    · by_cases hcond : 0 < n.length_squared
      · simp [hcond] at h
        rw [← h.2]
        simpa using hcond
      · simp [hcond] at h
  have hpos : ∀ (direction : V3 ℝ) (cast : CastResult ℝ) (up_vector : V3 ℝ)
      (rc : V3 ℝ → Option RayIntersection) (n : V3 ℝ),
      sample_normals direction cast up_vector rc = some n → 0 < n.length_squared := by
    intro direction cast up_vector rc n h
    simp only [sample_normals] at h
    split_ifs at h with hcond
    cases h
    exact hcond
  refine ⟨hnone, hpos, ?_, ?_⟩
  · intro sc rf direction up_vector rc e c h
    rcases sc with - | ⟨e0, c0⟩
    · rcases rf with - | ⟨e0, c0⟩
      · simp [ground_cast] at h
      · simp only [ground_cast] at h
        exact hhit e0 c0 direction up_vector rc e c h
    · simp only [ground_cast] at h
      exact hhit e0 c0 direction up_vector rc e c h
  · intro sc rf direction up_vector rc h
    have hwith : ∀ (e0 : ℕ) (c0 : CastResult ℝ),
        ground_cast_with_hit e0 c0 direction up_vector rc = none := by
      intro e0 c0
      simp [ground_cast_with_hit, hnone direction c0 up_vector rc h]
    rcases sc with - | ⟨e0, c0⟩
    · rcases rf with - | ⟨e0, c0⟩
      · rfl
      · simp [ground_cast, hwith]
    · simp [ground_cast, hwith]

/-- C10 witness: with no ray hits at all the detector reports no ground. -/
theorem degenerate_normal_rejected_witness :
    sample_normals ⟨0, -1, 0⟩ unitCast ⟨0, 1, 0⟩ (fun _ => none) = none
    ∧ ground_cast (some (3, unitCast)) none ⟨0, -1, 0⟩ ⟨0, 1, 0⟩ (fun _ => none)
        = none :=
  ⟨degenerate_normal_rejected.1 ⟨0, -1, 0⟩ unitCast ⟨0, 1, 0⟩ _ (fun _ => rfl),
   degenerate_normal_rejected.2.2.2 (some (3, unitCast)) none ⟨0, -1, 0⟩ ⟨0, 1, 0⟩ _
     (fun _ => rfl)⟩


/-! ## Claim theorems: slope slipping -/

theorem smul_dot (a : ℝ) (u w : V3 ℝ) : (a • u).dot w = a * u.dot w := by
  simp only [V3.smul_def, V3.dot]
  ring

theorem mul_dot_self_pos (d f : V3 ℝ)
    (hf : 0 ≤ f.x ∧ 0 ≤ f.y ∧ 0 ≤ f.z) (hnz : d * f ≠ 0) :
    0 < (d * f).dot d := by
  have hcases : d.x * f.x ≠ 0 ∨ d.y * f.y ≠ 0 ∨ d.z * f.z ≠ 0 := by
    by_contra hall
    push_neg at hall
    exact hnz (by simp [V3.ext_iff, hall.1, hall.2.1, hall.2.2])
  have key : ∀ (a b : ℝ), 0 ≤ b → a * b ≠ 0 → 0 < b * (a * a) := by
    intro a b hb hab
    rcases mul_ne_zero_iff.mp hab with ⟨ha, hbne⟩
    exact mul_pos (hb.lt_of_ne (Ne.symm hbne)) (mul_self_pos.mpr ha)
  have hx : 0 ≤ f.x * (d.x * d.x) := mul_nonneg hf.1 (mul_self_nonneg _)
  have hy : 0 ≤ f.y * (d.y * d.y) := mul_nonneg hf.2.1 (mul_self_nonneg _)
  have hz : 0 ≤ f.z * (d.z * d.z) := mul_nonneg hf.2.2 (mul_self_nonneg _)
  have hdot : (d * f).dot d
      = f.x * (d.x * d.x) + f.y * (d.y * d.y) + f.z * (d.z * d.z) := by
    simp only [V3.mul_def, V3.dot]
    ring
  rw [hdot]
  rcases hcases with h | h | h
  · nlinarith [key d.x f.x hf.1 h]
  · nlinarith [key d.y f.y hf.2.1 h]
  · nlinarith [key d.z f.z hf.2.2 h]

/-- C8: on a tick whose current ground is present but not stable, the
resolved movement force decomposes as the clamped movement force minus the
friction force plus `mass * slip_vector`, where the slip term is a nonzero
vector with strictly positive dot product against the downhill tangent of
the surface (the body is pushed down the slope); and when the goal
velocity points up the slope (negative alignment with the slip vector),
the goal is counteracted by the alignment component scaled componentwise
by the per-axis slip force scale.  Hypotheses: positive mass, a
componentwise-nonnegative force scale, and a nondegenerate scaled downhill
tangent. -/
theorem movement_force_slips_downhill (m : Movement) (inp : MovementTickInput)
    (g : Ground ℝ)
    (hcur : inp.ground.current = some g) (hst : g.stable = false)
    (hm : 0 < inp.mass)
    (hfs : 0 ≤ (m.force_scale_vec inp.up_vector).x
         ∧ 0 ≤ (m.force_scale_vec inp.up_vector).y
         ∧ 0 ≤ (m.force_scale_vec inp.up_vector).z)
    (hnz : g.cast.down_tangent inp.up_vector * m.force_scale_vec inp.up_vector ≠ 0) :
    ((movement_force_parts m inp).slip_vector = some (slip_dir m inp g))
    ∧ (movement_force m inp
        = (movement_force_parts m inp).movement_force
          - (movement_force_parts m inp).friction_force
          + inp.mass • slip_dir m inp g)
    ∧ (0 < (inp.mass • slip_dir m inp g).dot (g.cast.down_tangent inp.up_vector))
    ∧ (inp.mass • slip_dir m inp g ≠ 0)
    ∧ ((m.max_speed • inp.input_movement.clamp_length_max 1).dot (slip_dir m inp g) < 0 →
        (movement_force_parts m inp).goal_vel
          = m.max_speed • inp.input_movement.clamp_length_max 1
            - ((m.max_speed • inp.input_movement.clamp_length_max 1).dot (slip_dir m inp g)
                • slip_dir m inp g) * m.slip_force_scale) := by
  have hlen : 0 < (g.cast.down_tangent inp.up_vector
      * m.force_scale_vec inp.up_vector).length :=
    (V3.length_pos_iff _).mpr hnz
  have hsv : slip_dir m inp g
      = (1 / (g.cast.down_tangent inp.up_vector * m.force_scale_vec inp.up_vector).length)
        • (g.cast.down_tangent inp.up_vector * m.force_scale_vec inp.up_vector) := by
    rw [slip_dir, V3.normalize_or_zero, if_pos hlen]
  have h3 : 0 < (inp.mass • slip_dir m inp g).dot (g.cast.down_tangent inp.up_vector) := by
    rw [hsv, smul_dot, smul_dot]
    refine mul_pos hm (mul_pos (one_div_pos.mpr hlen) ?_)
    exact mul_dot_self_pos _ _ hfs hnz
  have h4 : inp.mass • slip_dir m inp g ≠ 0 := by
    intro heq
    rw [heq] at h3
    simp [V3.dot] at h3
  refine ⟨?_, ?_, h3, h4, ?_⟩
  · simp [movement_force_parts, hcur, hst, slip_dir]
  · simp [movement_force, movement_force_parts, hcur, hst, slip_dir, V3.ext_iff]
  · intro halign
    simp only [slip_dir] at halign
    simp at halign
    simp [movement_force_parts, hcur, hst, slip_dir, halign]

/-- C8 witness: standing on the 3-4-5 slope, the slip term is nonzero and
positively aligned with the downhill tangent. -/
theorem movement_force_slips_downhill_witness :
    0 < (slipInput.mass • slip_dir slipMovement slipInput slopeGround).dot
        (slopeGround.cast.down_tangent slipInput.up_vector)
    ∧ slipInput.mass • slip_dir slipMovement slipInput slopeGround ≠ 0 :=
  have h := movement_force_slips_downhill slipMovement slipInput slopeGround
    rfl rfl (by norm_num [slipInput])
    (by norm_num [Movement.force_scale_vec, slipMovement])
    (by
      norm_num [CastResult.down_tangent, V3.any_orthonormal_pair, V3.signum,
        V3.project_onto, V3.dot, V3.length_squared, Movement.force_scale_vec,
        slipMovement, slipInput, slopeGround, V3.ext_iff])
  ⟨h.2.2.1, h.2.2.2.1⟩

end Wanderlust
